import Mathlib

/-!
Shallow embedding of `pyannote/metrics/meeteval_cpwer.py` (class `CpWER`).

Numbers are modelled as rationals (`ℚ`).  Python values that may be either
a string or a list are modelled by the inductive type `PyObj`; Python
exceptions are modelled with `Except PyErr`.  The external collaborators
(the whisper `EnglishTextNormalizer` and meeteval `cp_word_error_rate`)
are injected as function fields of the `CpWER` structure, as the spec
directs ("consumed as an opaque function"); both may fail, mirroring the
fact that any Python call may raise.
-/

/-- Python exceptions that can abort the computation of one sample. -/
inductive PyErr where
  | indexError
  | typeError
  | normalizationError
  | alignmentError
deriving DecidableEq, Repr

/-- A dynamic Python value: either a string or a list (as used for the
`hypothesis` argument, which the code indexes with `[1]`). -/
inductive PyObj where
  | str (s : String)
  | list (l : List PyObj)

/-- Python indexing `x[i]` for a non-negative index: on a string it yields
the one-character string at position `i`, on a list the element at position
`i`; out of range raises `IndexError`. -/
def PyObj.getItem : PyObj → Nat → Except PyErr PyObj
  | .str s, i =>
    match s.data[i]? with
    | some c => .ok (.str (String.mk [c]))
    | none => .error .indexError
  | .list l, i =>
    match l[i]? with
    | some x => .ok x
    | none => .error .indexError

/-- Python `str.strip()`: remove leading and trailing whitespace. -/
def pyStrip (s : String) : String :=
  String.mk (((s.data.dropWhile Char.isWhitespace).reverse.dropWhile
    Char.isWhitespace).reverse)

/-- Python `file.startswith(uri)`: character-wise prefix test. -/
def pyStartsWith (file uri : String) : Bool :=
  uri.data.isPrefixOf file.data

/-- The object returned by meeteval `cp_word_error_rate`: the fields the
code reads (`length`, `substitutions`, `deletions`, `insertions`). -/
structure ErrorRate where
  length : ℚ
  substitutions : ℚ
  deletions : ℚ
  insertions : ℚ
deriving DecidableEq, Repr

/-- The components dictionary returned by `compute_components`: keys
`length`, `substitutions`, `deletions`, `insertions`. -/
structure Components where
  length : ℚ
  substitutions : ℚ
  deletions : ℚ
  insertions : ℚ
deriving DecidableEq, Repr

/-- The only part of a `pyannote.core.Annotation` value the code reads: its
`_uri` field. -/
structure Annotation where
  _uri : String
deriving DecidableEq, Repr

/-- The `CpWER` metric object: its configuration fields (`reference_dir`,
`normalizer`) plus the injected external collaborator
`cp_word_error_rate`.  The reference directory is modelled as the list of
its files in `os.listdir` order, each a `(filename, file contents)`
pair. -/
structure CpWER where
  reference_dir : List (String × String)
  normalizer : String → Except PyErr String
  cp_word_error_rate : List String → List String → Except PyErr ErrorRate

/-- The loop `for reference_file_path in references_file_paths:
reference_text.append(self.normalizer(ref_file.read().strip()))` — read
each matching file, strip it, normalize it, collect the results in
order. -/
def CpWER.readReferenceTexts (self : CpWER) :
    List (String × String) → Except PyErr (List String)
  | [] => .ok []
  | file :: rest => do
    let t ← self.normalizer (pyStrip file.2)
    let ts ← self.readReferenceTexts rest
    return t :: ts

/-- The comprehension `[self.normalizer(hyp) for hyp in asr_hypothesis]`;
the whisper normalizer operates on strings, so a non-string element raises
`TypeError`. -/
def CpWER.normalizeHyps (self : CpWER) :
    List PyObj → Except PyErr (List String)
  | [] => .ok []
  | .str s :: rest => do
    let t ← self.normalizer s
    let ts ← self.normalizeHyps rest
    return t :: ts
  | .list _ :: _ => .error .typeError

/-- `CpWER.compute_components`: extract `hypothesis[1]`, gather the
normalized contents of every reference file whose name starts with the
reference `_uri`, wrap a bare-string hypothesis into a one-element list,
normalize every hypothesis entry, and read the four fields off the
`cp_word_error_rate` result (the code initializes each running total to
`0.0` and adds the corresponding field once, so each total equals that
field). -/
def CpWER.compute_components (self : CpWER) (reference : Annotation)
    (hypothesis : PyObj) : Except PyErr Components :=
  -- asr_hypothesis = hypothesis[1]
  match hypothesis.getItem 1 with
  | .error e => .error e
  | .ok asr_hypothesis =>
    -- uri = reference._uri
    let uri := reference._uri
    -- references_file_paths = [... for file in os.listdir(...) if file.startswith(uri)]
    let references_file_paths := self.reference_dir.filter
      (fun file => pyStartsWith file.1 uri)
    match self.readReferenceTexts references_file_paths with
    | .error e => .error e
    | .ok reference_text =>
      -- if isinstance(asr_hypothesis, str): asr_hypothesis = [asr_hypothesis]
      let asr_wrapped : List PyObj :=
        match asr_hypothesis with
        | .str s => [.str s]
        | .list l => l
      match self.normalizeHyps asr_wrapped with
      | .error e => .error e
      | .ok asr_normalized =>
        -- cpwer = cp_word_error_rate(reference_text, asr_hypothesis)
        match self.cp_word_error_rate reference_text asr_normalized with
        | .error e => .error e
        | .ok cpwer =>
          .ok { length := cpwer.length
              , substitutions := cpwer.substitutions
              , deletions := cpwer.deletions
              , insertions := cpwer.insertions }

/-- `CpWER.compute_metric`: returns the metric value together with the list
of warnings emitted by `warnings.warn` during the call (the Python function
returns normally in every branch; it never raises). -/
def compute_metric (components : Components) : ℚ × List String :=
  let numerator := components.substitutions + components.deletions +
    components.insertions
  let denominator := components.length
  if denominator = 0 then
    if numerator = 0 then
      (0, [])
    else
      (1, ["Denominator (length) is zero while numerator is non-zero. Returning CpWER as 1.0."])
  else
    (numerator / denominator, [])

/-- The mutable per-instance state owned by the metric object: the running
corpus totals `accumulated_` (one per component name) and the history list
`results_` of `(uri, components)` entries.  A history entry additionally
carries the metric value under the metric name; it is modelled as the pair
`(Components, value)`. -/
structure MetricState where
  accumulated_ : Components
  results_ : List (String × Components × ℚ)
deriving DecidableEq, Repr

/-- Modelled from the spec: the state at construction (and after `reset()`),
which lives in the base class not present here — every running total is
initialized to zero for every declared component name and the history is
empty. -/
def MetricState.empty : MetricState :=
  { accumulated_ := ⟨0, 0, 0, 0⟩, results_ := [] }

/-- What `__call__` returns: the scalar value (`detailed=False`) or the
components dictionary updated with the metric value (`detailed=True`). -/
inductive CallReturn where
  | value (v : ℚ)
  | detailedComponents (c : Components) (v : ℚ)
deriving DecidableEq, Repr

/-- `CpWER.__call__`: compute the components, compute the metric value from
them, append `(uri, components)` to the history, and add each component
into the running totals.  The Python code reassigns `uri = reference._uri`
before the append, so the `uri` parameter is never read.  An exception in
`compute_components` propagates before any state mutation, leaving the
state unchanged. -/
def CpWER.call (self : CpWER) (st : MetricState) (reference : Annotation)
    (hypothesis : PyObj) (detailed : Bool) (uri : Option String) :
    MetricState × Except PyErr CallReturn :=
  match self.compute_components reference hypothesis with
  | .error e => (st, .error e)
  | .ok components =>
    -- components[self.metric_name_] = self.compute_metric(components)
    let value := (compute_metric components).1
    -- uri = reference._uri  (the parameter `uri` is overwritten)
    let uriKey := reference._uri
    -- self.results_.append((uri, components))
    -- for name in self.components_: self.accumulated_[name] += components[name]
    let st' : MetricState :=
      { accumulated_ :=
          { length := st.accumulated_.length + components.length
          , substitutions := st.accumulated_.substitutions + components.substitutions
          , deletions := st.accumulated_.deletions + components.deletions
          , insertions := st.accumulated_.insertions + components.insertions }
      , results_ := st.results_ ++ [(uriKey, components, value)] }
    if detailed then
      (st', .ok (.detailedComponents components value))
    else
      (st', .ok (.value value))

/-- Modelled from the spec: the corpus-level value (`corpusValue()` in the
spec; the base class, which is not present here, applies the metric formula
to the running totals) applies `compute_metric` to the current corpus
totals. -/
def corpusValue (st : MetricState) : ℚ :=
  (compute_metric st.accumulated_).1

/-- Sequentially evaluate a list of `(reference, hypothesis)` samples,
threading the metric state through successive `__call__` invocations. -/
def CpWER.runCalls (self : CpWER) :
    MetricState → List ( Annotation × PyObj) → MetricState
  | st, [] => st
  | st, (r, h) :: rest =>
    CpWER.runCalls self (self.call st r h false none).1 rest

/-- Whether the component computation of a sample succeeds (it does not
depend on the metric state). -/
def CpWER.sampleOk (self : CpWER) (p : Annotation × PyObj) : Bool :=
  match self.compute_components p.1 p.2 with
  | .ok _ => true
  | .error _ => false

/-! ### Test fixtures: a concrete metric object with stub collaborators -/

/-- A concrete hypothesis tuple `(diarization, asr_hypothesis, sources)`
with a list-valued asr hypothesis at index 1. -/
def hypDemo : PyObj := .list [.str "x", .str "hyp", .str "src"]

/-- A hypothesis tuple that is too short: indexing `[1]` raises
`IndexError`. -/
def hypBad : PyObj := .list [.str "x"]

/-- A concrete metric object: an identity normalizer and an alignment stub
that distinguishes the reference texts it is given. -/
def cfgDemo : CpWER :=
  { reference_dir := [("u1a.txt", " ra "), ("u2a.txt", "rb"), ("OVERRIDEa.txt", "rc")]
  , normalizer := fun s => .ok s
  , cp_word_error_rate := fun r _h =>
      .ok (if r = ["ra"] then ⟨10, 1, 0, 0⟩ else ⟨1, 1, 0, 0⟩) }

/-- A nontrivial metric state, used to observe that failed calls leave the
state untouched. -/
def stDemo : MetricState :=
  { accumulated_ := ⟨5, 1, 2, 3⟩, results_ := [("u0", ⟨5, 1, 2, 3⟩, 6 / 5)] }

/-! ### Helper lemmas about `__call__` -/

/-- When the component computation succeeds, `__call__` appends one history
entry and adds the components into the running totals. -/
theorem CpWER.call_fst_ok (self : CpWER) (st : MetricState) (r : Annotation)
    (hyp : PyObj) (d : Bool) (u : Option String) (c : Components)
    (hc : self.compute_components r hyp = .ok c) :
    (self.call st r hyp d u).1 =
      { accumulated_ :=
          { length := st.accumulated_.length + c.length
          , substitutions := st.accumulated_.substitutions + c.substitutions
          , deletions := st.accumulated_.deletions + c.deletions
          , insertions := st.accumulated_.insertions + c.insertions }
      , results_ := st.results_ ++ [(r._uri, c, (compute_metric c).1)] } := by
  unfold CpWER.call
  rw [hc]
  cases d <;> rfl

/-- When the component computation fails, `__call__` returns the state it
was given, unchanged, and propagates the exception. -/
theorem CpWER.call_eq_of_error (self : CpWER) (st : MetricState)
    (r : Annotation) (hyp : PyObj) (d : Bool) (u : Option String) (e : PyErr)
    (hc : self.compute_components r hyp = .error e) :
    self.call st r hyp d u = (st, .error e) := by
  unfold CpWER.call
  rw [hc]

/-- The history grows by exactly the number of samples whose component
computation succeeds. -/
theorem CpWER.runCalls_results_length (self : CpWER) :
    ∀ (inputs : List ( Annotation × PyObj)) (st : MetricState),
      ((self.runCalls st inputs).results_).length =
        st.results_.length + inputs.countP self.sampleOk := by
  intro inputs
  induction inputs with
  | nil => intro st; simp [CpWER.runCalls]
  | cons p rest ih =>
    intro st
    obtain ⟨r, hyp⟩ := p
    cases hok : self.compute_components r hyp with
    | ok c =>
      simp only [CpWER.runCalls, ih, CpWER.call_fst_ok _ _ _ _ _ _ _ hok,
        List.countP_cons, CpWER.sampleOk, hok]
      simp
      omega
    | error e =>
      simp only [CpWER.runCalls, ih, CpWER.call_eq_of_error _ _ _ _ _ _ _ hok,
        List.countP_cons, CpWER.sampleOk, hok]
      simp

/-! ### Claim theorems -/

/-- C1: For every components mapping with the four fields, when
`length > 0`, `compute_metric` returns exactly
`(substitutions + deletions + insertions) / length`, and it is
deterministic: equal components give equal results. -/
theorem compute_metric_formula_and_deterministic :
    (∀ c : Components, 0 < c.length →
      (compute_metric c).1 =
        (c.substitutions + c.deletions + c.insertions) / c.length) ∧
    (∀ c1 c2 : Components, c1 = c2 → compute_metric c1 = compute_metric c2) := by
  constructor
  · intro c hc
    simp [compute_metric, hc.ne']
  · intro c1 c2 h
    rw [h]

/-- Witness for C1 at the components `⟨4, 1, 2, 0⟩`. -/
theorem compute_metric_formula_and_deterministic_witness :
    (0 < (Components.mk 4 1 2 0).length ∧
      (compute_metric ⟨4, 1, 2, 0⟩).1 =
        ((Components.mk 4 1 2 0).substitutions + (Components.mk 4 1 2 0).deletions +
          (Components.mk 4 1 2 0).insertions) / (Components.mk 4 1 2 0).length) ∧
    compute_metric ⟨4, 1, 2, 0⟩ = compute_metric ⟨4, 1, 2, 0⟩ := by
  have h : 0 < (Components.mk 4 1 2 0).length := by norm_num
  exact ⟨⟨h, compute_metric_formula_and_deterministic.1 _ h⟩,
    compute_metric_formula_and_deterministic.2 _ _ rfl⟩

/-- C2: when `length = 0` and the numerator is `0`, `compute_metric`
returns `0.0` with no warning; when `length = 0` and the numerator is
non-zero, it returns `1.0` and emits a non-fatal warning (the function
returns normally: its result type is total, so it neither raises nor
aborts). -/
theorem compute_metric_zero_length_policy :
    ∀ c : Components, c.length = 0 →
      (c.substitutions + c.deletions + c.insertions = 0 →
        compute_metric c = (0, [])) ∧
      (c.substitutions + c.deletions + c.insertions ≠ 0 →
        (compute_metric c).1 = 1 ∧ (compute_metric c).2 ≠ []) := by
  intro c hlen
  constructor
  · intro hnum
    simp [compute_metric, hlen, hnum]
  · intro hnum
    simp [compute_metric, hlen, hnum]

/-- Witness for C2 at the components `⟨0, 0, 0, 0⟩` and `⟨0, 1, 0, 0⟩`. -/
theorem compute_metric_zero_length_policy_witness :
    ((Components.mk 0 0 0 0).length = 0 ∧ compute_metric ⟨0, 0, 0, 0⟩ = (0, [])) ∧
    ((Components.mk 0 1 0 0).length = 0 ∧ (compute_metric ⟨0, 1, 0, 0⟩).1 = 1 ∧
      (compute_metric ⟨0, 1, 0, 0⟩).2 ≠ []) := by
  have h0 : (Components.mk 0 0 0 0).length = 0 := rfl
  have h1 : (Components.mk 0 1 0 0).length = 0 := rfl
  refine ⟨⟨h0, (compute_metric_zero_length_policy _ h0).1 (by norm_num)⟩,
    ⟨h1, (compute_metric_zero_length_policy _ h1).2 (by norm_num)⟩⟩

/-- C3: after every successful `__call__`, each of the four running totals
increases by exactly that sample's component value; folding two samples
with components `c1` and `c2` starting from the zero state leaves the
totals at the componentwise sums. -/
theorem call_accumulates_componentwise :
    (∀ (self : CpWER) (st : MetricState) (r : Annotation) (hyp : PyObj)
        (d : Bool) (u : Option String) (c : Components),
        self.compute_components r hyp = .ok c →
        (self.call st r hyp d u).1.accumulated_.length = st.accumulated_.length + c.length ∧
        (self.call st r hyp d u).1.accumulated_.substitutions = st.accumulated_.substitutions + c.substitutions ∧
        (self.call st r hyp d u).1.accumulated_.deletions = st.accumulated_.deletions + c.deletions ∧
        (self.call st r hyp d u).1.accumulated_.insertions = st.accumulated_.insertions + c.insertions) ∧
    (∀ (self : CpWER) (r1 r2 : Annotation) (h1 h2 : PyObj) (c1 c2 : Components),
        self.compute_components r1 h1 = .ok c1 →
        self.compute_components r2 h2 = .ok c2 →
        (self.call (self.call MetricState.empty r1 h1 false none).1 r2 h2 false none).1.accumulated_ =
          ⟨c1.length + c2.length, c1.substitutions + c2.substitutions,
           c1.deletions + c2.deletions, c1.insertions + c2.insertions⟩) := by
  constructor
  · intro self st r hyp d u c hc
    rw [CpWER.call_fst_ok _ _ _ _ _ _ _ hc]
    exact ⟨rfl, rfl, rfl, rfl⟩
  · intro self r1 r2 h1 h2 c1 c2 hc1 hc2
    rw [CpWER.call_fst_ok _ _ _ _ _ _ _ hc1, CpWER.call_fst_ok _ _ _ _ _ _ _ hc2]
    simp [MetricState.empty]

/-- Witness for C3: two concrete successful calls on `cfgDemo` starting
from the zero state leave the totals at the componentwise sums. -/
theorem call_accumulates_componentwise_witness :
    cfgDemo.compute_components ⟨"u1"⟩ hypDemo = .ok ⟨10, 1, 0, 0⟩ ∧
    cfgDemo.compute_components ⟨"u2"⟩ hypDemo = .ok ⟨1, 1, 0, 0⟩ ∧
    (cfgDemo.call (cfgDemo.call MetricState.empty ⟨"u1"⟩ hypDemo false none).1
        ⟨"u2"⟩ hypDemo false none).1.accumulated_ =
      ⟨10 + 1, 1 + 1, 0 + 0, 0 + 0⟩ :=
  ⟨rfl, rfl, call_accumulates_componentwise.2 cfgDemo ⟨"u1"⟩ ⟨"u2"⟩
    hypDemo hypDemo ⟨10, 1, 0, 0⟩ ⟨1, 1, 0, 0⟩ rfl rfl⟩

/-- C4: the corpus-level value applies `compute_metric` to the summed
totals (pooled / micro-averaged): after folding samples with components
`⟨10,1,0,0⟩` and `⟨1,1,0,0⟩` from the zero state, the corpus value is
`2/11`, not the arithmetic mean of the two per-sample rates. -/
theorem corpus_value_is_pooled :
    ∀ (self : CpWER) (r1 r2 : Annotation) (h1 h2 : PyObj),
      self.compute_components r1 h1 = .ok ⟨10, 1, 0, 0⟩ →
      self.compute_components r2 h2 = .ok ⟨1, 1, 0, 0⟩ →
      corpusValue (self.call (self.call MetricState.empty r1 h1 false none).1
          r2 h2 false none).1 = 2 / 11 ∧
      corpusValue (self.call (self.call MetricState.empty r1 h1 false none).1
          r2 h2 false none).1 ≠
        ((compute_metric ⟨10, 1, 0, 0⟩).1 + (compute_metric ⟨1, 1, 0, 0⟩).1) / 2 := by
  intro self r1 r2 h1 h2 hc1 hc2
  rw [CpWER.call_fst_ok _ _ _ _ _ _ _ hc1, CpWER.call_fst_ok _ _ _ _ _ _ _ hc2]
  constructor
  · simp [corpusValue, compute_metric, MetricState.empty]
    norm_num
  · simp [corpusValue, compute_metric, MetricState.empty]
    norm_num

/-- Witness for C4: two concrete samples on `cfgDemo` with per-sample rates
`1/10` and `1` give the pooled corpus value `2/11`. -/
theorem corpus_value_is_pooled_witness :
    cfgDemo.compute_components ⟨"u1"⟩ hypDemo = .ok ⟨10, 1, 0, 0⟩ ∧
    cfgDemo.compute_components ⟨"u2"⟩ hypDemo = .ok ⟨1, 1, 0, 0⟩ ∧
    corpusValue (cfgDemo.call (cfgDemo.call MetricState.empty ⟨"u1"⟩ hypDemo
        false none).1 ⟨"u2"⟩ hypDemo false none).1 = 2 / 11 ∧
    corpusValue (cfgDemo.call (cfgDemo.call MetricState.empty ⟨"u1"⟩ hypDemo
        false none).1 ⟨"u2"⟩ hypDemo false none).1 ≠
      ((compute_metric ⟨10, 1, 0, 0⟩).1 + (compute_metric ⟨1, 1, 0, 0⟩).1) / 2 :=
  ⟨rfl, rfl,
    (corpus_value_is_pooled cfgDemo ⟨"u1"⟩ ⟨"u2"⟩ hypDemo hypDemo rfl rfl).1,
    (corpus_value_is_pooled cfgDemo ⟨"u1"⟩ ⟨"u2"⟩ hypDemo hypDemo rfl rfl).2⟩

/-- C5: every successful `__call__` appends exactly one `(uri, components)`
pair at the end of the history, a failed call appends nothing, and over any
sequence of calls the history length grows by exactly the number of
successful samples (so after N successful calls it has length N, in call
order). -/
theorem call_history_append_only :
    (∀ (self : CpWER) (st : MetricState) (r : Annotation) (hyp : PyObj)
        (d : Bool) (u : Option String) (c : Components),
        self.compute_components r hyp = .ok c →
        (self.call st r hyp d u).1.results_ =
          st.results_ ++ [(r._uri, c, (compute_metric c).1)]) ∧
    (∀ (self : CpWER) (st : MetricState) (r : Annotation) (hyp : PyObj)
        (d : Bool) (u : Option String) (e : PyErr),
        self.compute_components r hyp = .error e →
        (self.call st r hyp d u).1.results_ = st.results_) ∧
    (∀ (self : CpWER) (st : MetricState) (inputs : List ( Annotation × PyObj)),
        ((self.runCalls st inputs).results_).length =
          st.results_.length + inputs.countP self.sampleOk) := by
  refine ⟨?_, ?_, ?_⟩
  · intro self st r hyp d u c hc
    rw [CpWER.call_fst_ok _ _ _ _ _ _ _ hc]
  · intro self st r hyp d u e hc
    rw [CpWER.call_eq_of_error _ _ _ _ _ _ _ hc]
  · intro self st inputs
    exact CpWER.runCalls_results_length self inputs st

/-- Witness for C5: on `cfgDemo`, a successful call appends exactly its
entry and a failed call (hypothesis tuple too short) appends nothing. -/
theorem call_history_append_only_witness :
    cfgDemo.compute_components ⟨"u1"⟩ hypDemo = .ok ⟨10, 1, 0, 0⟩ ∧
    (cfgDemo.call stDemo ⟨"u1"⟩ hypDemo false none).1.results_ =
      stDemo.results_ ++ [("u1", ⟨10, 1, 0, 0⟩, (compute_metric ⟨10, 1, 0, 0⟩).1)] ∧
    cfgDemo.compute_components ⟨"u1"⟩ hypBad = .error .indexError ∧
    (cfgDemo.call stDemo ⟨"u1"⟩ hypBad true (some "x")).1.results_ = stDemo.results_ :=
  ⟨rfl,
    call_history_append_only.1 cfgDemo stDemo ⟨"u1"⟩ hypDemo false none
      ⟨10, 1, 0, 0⟩ rfl,
    rfl,
    call_history_append_only.2.1 cfgDemo stDemo ⟨"u1"⟩ hypBad true (some "x")
      .indexError rfl⟩

/-- C6: when the component computation of a sample fails, `__call__` leaves
the entire metric state — running totals and history — exactly as it was
before the call. -/
theorem failed_call_leaves_state_unchanged :
    ∀ (self : CpWER) (st : MetricState) (r : Annotation) (hyp : PyObj)
      (d : Bool) (u : Option String) (e : PyErr),
      self.compute_components r hyp = .error e →
      (self.call st r hyp d u).1 = st := by
  intro self st r hyp d u e hc
  rw [CpWER.call_eq_of_error _ _ _ _ _ _ _ hc]

/-- Witness for C6: a failing call on `cfgDemo` (hypothesis tuple too
short) leaves the nontrivial state `stDemo` untouched. -/
theorem failed_call_leaves_state_unchanged_witness :
    cfgDemo.compute_components ⟨"u1"⟩ hypBad = .error .indexError ∧
    (cfgDemo.call stDemo ⟨"u1"⟩ hypBad false none).1 = stDemo :=
  ⟨rfl, failed_call_leaves_state_unchanged cfgDemo stDemo ⟨"u1"⟩ hypBad
    false none .indexError rfl⟩

/-- Counterexample to C7 as stated: passing the `hypothesis` argument
itself as the bare string `"ab"` is not equivalent to passing the
single-element list `["ab"]` — the code indexes `hypothesis[1]` first, so
the bare string yields its second character while the single-element list
raises `IndexError`. -/
theorem bare_string_hypothesis_differs_cex :
    cfgDemo.compute_components ⟨"u1"⟩ (.str "ab") ≠
      cfgDemo.compute_components ⟨"u1"⟩ (.list [.str "ab"]) := by
  intro h
  have h2 : (Except.ok ⟨10, 1, 0, 0⟩ : Except PyErr Components) =
      .error .indexError := h
  exact Except.noConfusion h2

/-- C7 amended: the string-or-sequence wrapping applies to the element at
index 1 of the hypothesis tuple (the asr hypothesis), not to the
`hypothesis` argument itself: whenever one tuple carries the bare string
`s` at index 1 and another carries the single-element sequence `[s]`
there, the computed components are identical. -/
theorem wrap_at_index_one_idempotent :
    ∀ (self : CpWER) (r : Annotation) (h1 h2 : PyObj) (s : String),
      h1.getItem 1 = .ok (.str s) →
      h2.getItem 1 = .ok (.list [.str s]) →
      self.compute_components r h1 = self.compute_components r h2 := by
  intro self r h1 h2 s e1 e2
  unfold CpWER.compute_components
  rw [e1, e2]

/-- Witness for C7 amended: on `cfgDemo`, a tuple with the bare string
`"hyp"` at index 1 and a tuple with `["hyp"]` at index 1 give identical
components. -/
theorem wrap_at_index_one_idempotent_witness :
    (PyObj.list [.str "x", .str "hyp"]).getItem 1 = .ok (.str "hyp") ∧
    (PyObj.list [.str "x", .list [.str "hyp"], .str "src"]).getItem 1 =
      .ok (.list [.str "hyp"]) ∧
    cfgDemo.compute_components ⟨"u1"⟩ (.list [.str "x", .str "hyp"]) =
      cfgDemo.compute_components ⟨"u1"⟩
        (.list [.str "x", .list [.str "hyp"], .str "src"]) :=
  ⟨rfl, rfl, wrap_at_index_one_idempotent cfgDemo ⟨"u1"⟩ _ _ "hyp" rfl rfl⟩

/-- C8 (code bug): the `uri` parameter of `__call__` is documented to
override the sample identifier, but the code reassigns
`uri = reference._uri` and never forwards the parameter, so with
`uri="OVERRIDE"` the history key is still the reference `_uri` `"u1"`, the
reference lookup still uses `"u1"` (the components come from the `"u1"`
reference files), and the call is indistinguishable from one with no
`uri` argument. -/
theorem call_ignores_uri_argument :
    (cfgDemo.call MetricState.empty ⟨"u1"⟩ hypDemo false (some "OVERRIDE")).1.results_ =
      [("u1", ⟨10, 1, 0, 0⟩, (compute_metric ⟨10, 1, 0, 0⟩).1)] ∧
    ("u1" : String) ≠ "OVERRIDE" ∧
    cfgDemo.call MetricState.empty ⟨"u1"⟩ hypDemo false (some "OVERRIDE") =
      cfgDemo.call MetricState.empty ⟨"u1"⟩ hypDemo false none := by
  refine ⟨?_, by decide, rfl⟩
  rw [CpWER.call_fst_ok cfgDemo MetricState.empty ⟨"u1"⟩ hypDemo false
    (some "OVERRIDE") ⟨10, 1, 0, 0⟩ rfl]
  simp [MetricState.empty]

/-- Counterexample to C9 as stated: on `cfgDemo` no reference file name
starts with `"u3"`, yet `compute_components` does not fail — it proceeds
with an empty reference list and returns whatever the alignment
collaborator produces on it (no `ReferenceNotFoundError` exists anywhere
in the code). -/
theorem missing_reference_proceeds_cex :
    cfgDemo.reference_dir.filter (fun f => pyStartsWith f.1 "u3") = [] ∧
    cfgDemo.compute_components ⟨"u3"⟩ hypDemo = .ok ⟨1, 1, 0, 0⟩ :=
  ⟨rfl, rfl⟩

/-- The hypothesis-normalization loop reads only the `normalizer` field of
the metric object. -/
theorem CpWER.normalizeHyps_congr (self self' : CpWER)
    (h : self'.normalizer = self.normalizer) :
    ∀ l, self'.normalizeHyps l = self.normalizeHyps l := by
  intro l
  induction l with
  | nil => rfl
  | cons x rest ih =>
    cases x with
    | str s => simp only [CpWER.normalizeHyps, h, ih]
    | list l2 => rfl

/-- C9 amended: when no reference file name starts with the reference
`_uri`, `compute_components` raises nothing on that account; it behaves
exactly as if the reference directory were empty, passing an empty
reference list to the alignment collaborator. -/
theorem empty_reference_set_proceeds :
    ∀ (self : CpWER) (r : Annotation) (hyp : PyObj),
      self.reference_dir.filter (fun f => pyStartsWith f.1 r._uri) = [] →
      self.compute_components r hyp =
        CpWER.compute_components { self with reference_dir := [] } r hyp := by
  intro self r hyp hfil
  have hnorm := CpWER.normalizeHyps_congr self { self with reference_dir := [] } rfl
  simp only [CpWER.compute_components, hfil, List.filter_nil,
    CpWER.readReferenceTexts, hnorm]

/-- Witness for C9 amended: `cfgDemo` with the unmatched identifier `"u3"`
behaves as if its reference directory were empty. -/
theorem empty_reference_set_proceeds_witness :
    cfgDemo.reference_dir.filter (fun f => pyStartsWith f.1 "u3") = [] ∧
    cfgDemo.compute_components ⟨"u3"⟩ hypDemo =
      CpWER.compute_components { cfgDemo with reference_dir := [] } ⟨"u3"⟩ hypDemo :=
  ⟨rfl, empty_reference_set_proceeds cfgDemo ⟨"u3"⟩ hypDemo rfl⟩

/-- C10: `compute_components` reads only the element at index 1 of the
`hypothesis` argument — any two hypothesis values that agree at index 1
(including both being out of range) produce identical results. -/
theorem compute_components_reads_only_index_one :
    ∀ (self : CpWER) (r : Annotation) (h1 h2 : PyObj),
      h1.getItem 1 = h2.getItem 1 →
      self.compute_components r h1 = self.compute_components r h2 := by
  intro self r h1 h2 he
  unfold CpWER.compute_components
  rw [he]

/-- Witness for C10: a three-element tuple and the bare string `"ab"`
agree at index 1 (both yield the one-character string `"b"`), so they give
identical components on `cfgDemo`. -/
theorem compute_components_reads_only_index_one_witness :
    (PyObj.list [.str "x", .str "b", .str "z"]).getItem 1 =
      (PyObj.str "ab").getItem 1 ∧
    cfgDemo.compute_components ⟨"u1"⟩ (.list [.str "x", .str "b", .str "z"]) =
      cfgDemo.compute_components ⟨"u1"⟩ (.str "ab") :=
  ⟨rfl, compute_components_reads_only_index_one cfgDemo ⟨"u1"⟩ _ _ rfl⟩
